import Mathlib

/-!
Shallow embedding of the hns command-line transcription tool
(src/hns/cli.py) together with the parts of the repository that only
its tests reference (the Parakeet backend and device resolution),
which are modelled from the specification where noted.

Conventions of the embedding:
* Python optional strings become `Option String`; Python truthiness
  (`None` and `""` are falsy) is `pyTruthy`, and the `a or b` idiom is
  `pyOr`.
* Exceptions become `Except`; the two exception classes that the
  control flow distinguishes (`ValueError`, `RuntimeError`) are the
  constructors of `PyErr`.
* External collaborators (the TOML parser, the audio stream, model
  inference, the clipboard, the file system) are inputs to the
  embedded functions: each is an `Except`-valued outcome that the
  embedded control flow reacts to exactly as the source does.
-/

deriving instance DecidableEq for Except

namespace Hns

/-- Python truthiness of an optional string: `None` and `""` are falsy. -/
def pyTruthy : Option String → Bool
  | none => false
  | some s => s ≠ ""

/-- Python `a or b` over optional strings: `b` when `a` is falsy. -/
def pyOr (a b : Option String) : Option String :=
  if pyTruthy a then a else b

/-- Exceptions distinguished by the control flow of src/hns/cli.py. -/
inductive PyErr where
  | valueError (msg : String)
  | runtimeError (msg : String)
deriving Repr, DecidableEq

/-- Message carried by an exception, as Python string-formatting shows it. -/
def PyErr.msg : PyErr → String
  | .valueError m => m
  | .runtimeError m => m

/-! ### Settings file and resolution (load_config, main lines 378-382) -/

/-- Recognized keys of the TOML settings file; unknown keys are ignored,
so only these four are carried. -/
structure Config where
  backend : Option String := none
  model : Option String := none
  language : Option String := none
  save_dir : Option String := none
deriving Repr, DecidableEq

/-- Outcome of hns.cli.load_config: the mapping plus whether the
parse-failure warning was printed. -/
structure ConfigLoad where
  config : Config
  warned : Bool
deriving Repr, DecidableEq

/-- Embedding of hns.cli.load_config: a missing file yields the empty
mapping; a parse failure prints a warning and yields the empty mapping;
otherwise the parsed mapping is returned.  The TOML parser is an external
collaborator, so its outcome is the `parse` input. -/
def load_config (fileExists : Bool) (parse : Except String Config) : ConfigLoad :=
  if fileExists then
    match parse with
    | .ok c => ⟨c, false⟩
    | .error _ => ⟨{}, true⟩
  else ⟨{}, false⟩

/-- Platforms distinguished by hns.cli.get_default_save_dir. -/
inductive Platform where
  | win32
  | darwin
  | linux
deriving Repr, DecidableEq

/-- Embedding of hns.cli.get_default_save_dir. -/
def get_default_save_dir (home : String) : Platform → String
  | .win32 => home ++ "/AppData/Roaming/hns/Recordings"
  | .darwin => home ++ "/Library/Application Support/hns/recordings"
  | .linux => home ++ "/.local/share/hns/recordings"

/-- Embedding of Path.expanduser as used on the configured save
directory: a leading `~` is replaced by the home directory. -/
def expanduser (home s : String) : String :=
  if s = "~" then home
  else if s.startsWith "~/" then home ++ s.drop 1
  else s

/-- Embedding of main line 379:
`resolved_model = model or os.environ.get("HNS_WHISPER_MODEL") or cfg.get("model") or "base"`. -/
def resolved_model (explicit envModel cfgModel : Option String) : String :=
  match pyOr (pyOr explicit envModel) cfgModel with
  | some s => if s = "" then "base" else s
  | none => "base"

/-- Embedding of main line 380:
`resolved_language = language or os.environ.get("HNS_LANG") or cfg.get("language") or None`. -/
def resolved_language (explicit envLang cfgLang : Option String) : Option String :=
  let r := pyOr (pyOr explicit envLang) cfgLang
  if pyTruthy r then r else none

/-- Embedding of main lines 381-382:
`save_dir = Path(raw_save_dir).expanduser() if raw_save_dir else get_default_save_dir()`
where `raw_save_dir = cfg.get("save_dir")`.  The resolver consults no
call-time flag and no environment variable for this key. -/
def resolved_save_dir (home : String) (p : Platform) (cfgSaveDir : Option String) : String :=
  match cfgSaveDir with
  | some s => if s = "" then get_default_save_dir home p else expanduser home s
  | none => get_default_save_dir home p

/-- Modelled from the spec: backend selection (a call-time flag, the
`HNS_BACKEND` environment variable, the settings key `backend`, built-in
default Whisper) exists in the repository and is exercised by its tests,
but is absent from the source snapshot under src/.  Per the spec it
follows the strict precedence explicit value, then environment variable,
then settings-file value, then the built-in default `whisper`, with the
same falsy-skipping idiom as the other keys. -/
def resolved_backend (explicit envBackend cfgBackend : Option String) : String :=
  match pyOr (pyOr explicit envBackend) cfgBackend with
  | some s => if s = "" then "whisper" else s
  | none => "whisper"

/-- Resolution chain exactly as the claim words it for every key: an
explicit call-time value wins over the environment variable, which wins
over the settings-file value, which wins over the built-in default. -/
def claimedPrecedence (explicit envVal fileVal : Option String) (dflt : String) : String :=
  match explicit with
  | some s => s
  | none =>
    match envVal with
    | some s => s
    | none =>
      match fileVal with
      | some s => s
      | none => dflt

/-! ### WhisperTranscriber model-name resolution (lines 209-255) -/

/-- Embedding of WhisperTranscriber.VALID_MODELS. -/
def VALID_MODELS : List String :=
  ["tiny.en", "tiny", "base.en", "base", "small.en", "small",
   "medium.en", "medium", "large-v1", "large-v2", "large-v3", "large",
   "distil-large-v2", "distil-medium.en", "distil-small.en",
   "distil-large-v3", "distil-large-v3.5", "large-v3-turbo", "turbo"]

/-- Result of model-name resolution: the chosen name plus whether the
invalid-model warning was printed. -/
structure ModelNameResult where
  name : String
  warned : Bool
deriving Repr, DecidableEq

/-- Local variable `model` of WhisperTranscriber._get_model_name:
`model = model_name or os.environ.get("HNS_WHISPER_MODEL", "base")`.
The environment lookup defaults to `"base"` only when the variable is
unset; a set-but-empty variable passes `""` through. -/
def effectiveRequestedModel (modelName envModel : Option String) : String :=
  if pyTruthy modelName then modelName.getD "" else envModel.getD "base"

/-- Embedding of WhisperTranscriber._get_model_name (lines 247-255). -/
def getModelName (modelName envModel : Option String) : ModelNameResult :=
  let model := effectiveRequestedModel modelName envModel
  if model ∈ VALID_MODELS then ⟨model, false⟩ else ⟨"base", true⟩

/-! ### Device resolution (present in the repository, absent from src/) -/

/-- Modelled from the spec: WhisperTranscriber._resolve_device is part of
the repository (its tests exercise it) but missing from the source
snapshot, whose _load_model hard-codes cpu/int8.  Per the spec, an
explicit request (call-time value, else the `HNS_DEVICE` environment
variable) always wins: `cuda` pairs with `float16`, `cpu` and any
unsupported value fall back to `(cpu, int8)`.  With no explicit request,
auto-probing of the acceleration backend decides: available yields
`(cuda, float16)`, none yields `(cpu, int8)`. -/
def whisperResolveDevice (requested envDevice : Option String) (accelAvailable : Bool) :
    String × String :=
  let req := pyOr requested envDevice
  if pyTruthy req then
    if req = some "cuda" then ("cuda", "float16") else ("cpu", "int8")
  else
    if accelAvailable then ("cuda", "float16") else ("cpu", "int8")

/-- Modelled from the spec: ParakeetTranscriber._resolve_device is part
of the repository (its tests exercise it) but missing from the source
snapshot.  Per the spec it follows the same two-branch policy and
returns only a device: an explicit request wins, with unknown values
falling back to `cpu`; with no explicit request, the execution-provider
probe decides between `cuda` and `cpu`. -/
def parakeetResolveDevice (requested envDevice : Option String) (cudaProvider : Bool) :
    String :=
  let req := pyOr requested envDevice
  if pyTruthy req then
    if req = some "cuda" then "cuda" else "cpu"
  else
    if cudaProvider then "cuda" else "cpu"

/-! ### Transcription (WhisperTranscriber.transcribe, lines 265-334) -/

/-- Whitespace characters recognized by the embedding of Python
str.strip, covering the ASCII range such input can carry. -/
def isSpaceChar (c : Char) : Bool :=
  c == ' ' || c == '\t' || c == '\n' || c == '\r'

/-- Removal of leading whitespace from a character list. -/
def dropLeadingSpace : List Char → List Char
  | [] => []
  | c :: cs => if isSpaceChar c then dropLeadingSpace cs else c :: cs

/-- Embedding of Python str.strip as used on each segment text (lines
291 and 323): leading and trailing whitespace removed. -/
def pyStrip (s : String) : String :=
  String.mk ((dropLeadingSpace (dropLeadingSpace s.data).reverse).reverse)

/-- Per-segment texts after stripping, keeping only the non-empty ones
(lines 289-293 and 321-325). -/
def transcription_parts (segments : List String) : List String :=
  (segments.map pyStrip).filter (· ≠ "")

/-- Join of the kept per-segment texts with a single space (line 327). -/
def full_transcription (segments : List String) : String :=
  " ".intercalate (transcription_parts segments)

/-- Embedding of WhisperTranscriber.transcribe.  The model inference is
an external collaborator whose outcome is the `inference` input: its
per-segment texts on success, the raised exception on failure.  The body
mirrors the source's try block: an inference failure propagates, an
empty joined transcript raises `ValueError "No speech detected in audio"`,
and the blanket `except Exception` wraps whichever exception reaches it
in `RuntimeError "Transcription failed: ..."`. -/
def transcribe (inference : Except PyErr (List String)) : Except PyErr String :=
  let body : Except PyErr String :=
    match inference with
    | .error e => .error e
    | .ok segs =>
      if full_transcription segs = "" then
        .error (.valueError "No speech detected in audio")
      else
        .ok (full_transcription segs)
  match body with
  | .ok t => .ok t
  | .error e => .error (.runtimeError ("Transcription failed: " ++ e.msg))

/-! ### Audio capture (AudioRecorder.record, lines 117-174) -/

/-- Total frame counter accumulated by the audio callback: each incoming
chunk adds its frame count to `recording_frames` (line 115). -/
def recording_frames (chunks : List Nat) : Nat := chunks.sum

/-- Tail of AudioRecorder.record after the sink is closed (lines
171-174): zero captured frames raise `ValueError "No audio recorded"`,
otherwise the path of the finished artifact is returned.  The stream of
chunks delivered by the audio callback is the `chunks` input. -/
def record (chunks : List Nat) (audioFilePath : String) : Except PyErr String :=
  if recording_frames chunks = 0 then .error (.valueError "No audio recorded")
  else .ok audioFilePath

/-! ### Slug and persisted metadata (save_recording, lines 62-98) -/

/-- ASCII lowering of a single character, the fragment of Python
str.lower that the slug pipeline can observe: every character outside
`[a-z0-9 ]` is removed by the subsequent substitution either way. -/
def pyLowerChar (c : Char) : Char :=
  if 65 ≤ c.toNat ∧ c.toNat ≤ 90 then Char.ofNat (c.toNat + 32) else c

/-- Characters kept by the substitution of line 74, the regular
expression class `[a-z0-9 ]`. -/
def keptChar (c : Char) : Bool :=
  (97 ≤ c.toNat && c.toNat ≤ 122) || (48 ≤ c.toNat && c.toNat ≤ 57) || c.toNat == 32

/-- Alphanumeric character, as the claim words the stripping step. -/
def isAlphanumeric (c : Char) : Bool :=
  (65 ≤ c.toNat && c.toNat ≤ 90) || (97 ≤ c.toNat && c.toNat ≤ 122) ||
    (48 ≤ c.toNat && c.toNat ≤ 57)

/-- Splitting on single spaces, keeping empty runs, over a character
list. -/
def splitOnSpace (cs : List Char) : List (List Char) :=
  cs.foldr
    (fun c acc =>
      if c = ' ' then [] :: acc
      else
        match acc with
        | [] => [[c]]
        | w :: ws => (c :: w) :: ws)
    [[]]

/-- Python str.split with no argument over a character list that can
only contain spaces as whitespace: the maximal non-space runs. -/
def pyWords (cs : List Char) : List (List Char) :=
  (splitOnSpace cs).filter (· ≠ [])

/-- Local variable `words` of save_recording (line 74):
`re.sub(r"[^a-z0-9 ]", "", text.lower()).split()`. -/
def slugWords (text : String) : List (List Char) :=
  pyWords ((text.data.map pyLowerChar).filter keptChar)

/-- Embedding of the slug of save_recording (line 75):
`"_".join(words[:5]) if words else "no_speech"`. -/
def slug (text : String) : String :=
  if slugWords text = [] then "no_speech"
  else "_".intercalate (((slugWords text).take 5).map String.mk)

/-- Slug derivation exactly as the claim words it: lower-case the
transcript, strip the characters that are neither alphanumeric nor the
word separator, take at most the first 5 words, join them with single
spaces, and fall back to the fixed placeholder when no words remain. -/
def slugClaimed (text : String) : String :=
  let stripped := (text.data.map pyLowerChar).filter fun c => isAlphanumeric c || c.toNat == 32
  if pyWords stripped = [] then "no_speech"
  else " ".intercalate (((pyWords stripped).take 5).map String.mk)

/-- Slug derivation of the amended claim: identical to `slugClaimed`
except that the words are joined with underscores, as the source does. -/
def slugAmended (text : String) : String :=
  let stripped := (text.data.map pyLowerChar).filter fun c => isAlphanumeric c || c.toNat == 32
  if pyWords stripped = [] then "no_speech"
  else "_".intercalate (((pyWords stripped).take 5).map String.mk)

/-- File stem of the persisted artifact pair (line 76). -/
def save_stem (timestamp text : String) : String :=
  timestamp ++ "_" ++ slug text

/-- JSON values occurring in the metadata sidecar.  Floating-point
durations are carried opaquely as rationals; the embedding never
computes with them. -/
inductive JValue where
  | jstr (s : String)
  | jnum (q : ℚ)
  | jnull
deriving Repr, DecidableEq

/-- Python optional string under json.dumps: `None` serializes to null. -/
def joptStr : Option String → JValue
  | some s => .jstr s
  | none => .jnull

/-- Python optional float under json.dumps: `None` serializes to null. -/
def joptNum : Option ℚ → JValue
  | some q => .jnum q
  | none => .jnull

/-- Inputs of the metadata dictionary built by save_recording. -/
structure RecordingMeta where
  text : String
  model : String
  language : Option String
  recordedAt : String
  audioDuration : Option ℚ
  transcriptionTime : Option ℚ
deriving Repr, DecidableEq

/-- Embedding of the metadata dictionary of save_recording (lines
87-95), as the ordered key-value pairs that json.dumps serializes. -/
def metadataJson (m : RecordingMeta) (stem : String) : List (String × JValue) :=
  [("text", .jstr m.text),
   ("model", .jstr m.model),
   ("language", joptStr m.language),
   ("recorded_at", .jstr m.recordedAt),
   ("audio_duration_seconds", joptNum m.audioDuration),
   ("transcription_time_seconds", joptNum m.transcriptionTime),
   ("wav_file", .jstr (stem ++ ".wav"))]

/-- Reading one field back from a serialized sidecar record. -/
def readField (doc : List (String × JValue)) (key : String) : Option JValue :=
  (doc.find? fun kv => kv.1 = key).map (·.2)

/-! ### The pipeline (main, lines 359-428) -/

/-- Stage outcomes that main reacts to.  Each external collaborator
(the recorder, model loading, inference, the clipboard, the file
system) is an input; `lastFlag` and `lastFileExists` describe the
replay branch. -/
structure MainInputs where
  lastFlag : Bool
  lastFileExists : Bool
  recordResult : Except PyErr String
  modelLoad : Except PyErr Unit
  inference : Except PyErr (List String)
  clipboard : Except String Unit
  persist : Except String Unit

/-- Observable trace of one invocation: diagnostic warnings and errors,
primary-output lines, the exit code, and which stages ran. -/
structure MainTrace where
  warnings : List String
  errors : List String
  stdout : List String
  exitCode : Nat
  recorded : Bool
  modelLoaded : Bool
  transcribed : Bool
  clipboardAttempted : Bool
  persistAttempted : Bool
deriving Repr, DecidableEq

/-- Trace at the start of a run. -/
def mainInit : MainTrace :=
  ⟨[], [], [], 0, false, false, false, false, false⟩

/-- Embedding of the body of main after settings resolution (lines
384-428).  The replay branch exits with code 1 when no cached recording
exists; a capture, model-load or transcription failure is caught by the
handlers of lines 423-428 and exits with code 1; clipboard and
persistence failures are each caught locally (lines 402-419) and only
warn; the transcript is printed to the primary output stream and the
run ends with exit code 0. -/
def mainRun (i : MainInputs) : MainTrace :=
  let afterAudio : Except MainTrace MainTrace :=
    if i.lastFlag then
      if i.lastFileExists then .ok mainInit
      else
        .error { mainInit with
          errors := ["No previous recording found. Record audio first by running hns without --last flag."],
          exitCode := 1 }
    else
      match i.recordResult with
      | .ok _ => .ok { mainInit with recorded := true }
      | .error e => .error { mainInit with errors := [e.msg], exitCode := 1 }
  match afterAudio with
  | .error t => t
  | .ok t0 =>
    match i.modelLoad with
    | .error e => { t0 with errors := [e.msg], exitCode := 1 }
    | .ok _ =>
      let t1 := { t0 with modelLoaded := true }
      match transcribe i.inference with
      | .error e => { t1 with errors := [e.msg], exitCode := 1 }
      | .ok transcriptText =>
        let t2 := { t1 with transcribed := true }
        let t3 :=
          match i.clipboard with
          | .ok _ => { t2 with clipboardAttempted := true }
          | .error m =>
            { t2 with
              clipboardAttempted := true
              warnings := t2.warnings ++ ["Failed to copy to clipboard: " ++ m] }
        let t4 :=
          match i.persist with
          | .ok _ => { t3 with persistAttempted := true }
          | .error m =>
            { t3 with
              persistAttempted := true
              warnings := t3.warnings ++ ["Failed to save recording: " ++ m] }
        { t4 with stdout := t4.stdout ++ [transcriptText], exitCode := 0 }

/-! ## Helper lemmas -/

/-- Conversion of a valid scalar value round-trips through Char.ofNat. -/
theorem toNat_ofNat_valid (n : Nat) (h : n.isValidChar) : (Char.ofNat n).toNat = n := by
  unfold Char.ofNat
  rw [dif_pos h]
  rfl

/-- Scalar value of the lowered character. -/
theorem pyLowerChar_toNat (c : Char) :
    (pyLowerChar c).toNat =
      if 65 ≤ c.toNat ∧ c.toNat ≤ 90 then c.toNat + 32 else c.toNat := by
  unfold pyLowerChar
  split
  case isTrue h => exact toNat_ofNat_valid _ (Or.inl (by omega))
  case isFalse h => rfl

/-- On characters that already passed through the lowering step, the
source's character class `[a-z0-9 ]` and the claim's class
"alphanumeric or space" agree: no uppercase letter survives lowering. -/
theorem keptChar_pyLower (c : Char) :
    keptChar (pyLowerChar c) =
      (isAlphanumeric (pyLowerChar c) || (pyLowerChar c).toNat == 32) := by
  have h := pyLowerChar_toNat c
  have hm : ¬(65 ≤ (pyLowerChar c).toNat ∧ (pyLowerChar c).toNat ≤ 90) := by
    by_cases hc : 65 ≤ c.toNat ∧ c.toNat ≤ 90
    · rw [if_pos hc] at h
      omega
    · rw [if_neg hc] at h
      omega
  unfold keptChar isAlphanumeric
  rw [Bool.eq_iff_iff]
  simp only [Bool.or_eq_true, Bool.and_eq_true, decide_eq_true_eq, beq_iff_eq]
  omega

/-! ## Claim theorems -/

/-- C1: in a pipeline run where transcription succeeds, a clipboard-copy
failure and a persistence failure are each caught independently and
surface only as warnings, a clipboard failure does not prevent the
persistence attempt (and vice versa), the transcript is still written to
the primary output stream, and the run exits with code 0. -/
theorem main_copy_persist_nonfatal (i : MainInputs) (txt : String)
    (haudio : (i.lastFlag = true ∧ i.lastFileExists = true) ∨
      (i.lastFlag = false ∧ ∃ p, i.recordResult = .ok p))
    (hload : i.modelLoad = .ok ())
    (htr : transcribe i.inference = .ok txt) :
    (mainRun i).exitCode = 0 ∧
    (mainRun i).stdout = [txt] ∧
    (mainRun i).errors = [] ∧
    (mainRun i).clipboardAttempted = true ∧
    (mainRun i).persistAttempted = true ∧
    (mainRun i).warnings =
      (match i.clipboard with
       | .ok _ => []
       | .error m => ["Failed to copy to clipboard: " ++ m]) ++
      (match i.persist with
       | .ok _ => []
       | .error m => ["Failed to save recording: " ++ m]) := by
  rcases haudio with ⟨h1, h2⟩ | ⟨h1, p, h2⟩ <;>
    cases hc : i.clipboard <;> cases hp : i.persist <;>
      simp [mainRun, mainInit, h1, h2, hload, htr, hc, hp]

/-- C1 witness: a run with a successful transcription, a failing
clipboard and a failing persistence step still prints the transcript,
warns twice and exits 0. -/
theorem main_copy_persist_nonfatal_witness :
    (mainRun ⟨false, false, .ok "last_recording.wav", .ok (), .ok ["hello ", " world"],
        .error "no clipboard mechanism", .error "disk full"⟩).exitCode = 0 ∧
    (mainRun ⟨false, false, .ok "last_recording.wav", .ok (), .ok ["hello ", " world"],
        .error "no clipboard mechanism", .error "disk full"⟩).stdout = ["hello world"] ∧
    (mainRun ⟨false, false, .ok "last_recording.wav", .ok (), .ok ["hello ", " world"],
        .error "no clipboard mechanism", .error "disk full"⟩).errors = [] ∧
    (mainRun ⟨false, false, .ok "last_recording.wav", .ok (), .ok ["hello ", " world"],
        .error "no clipboard mechanism", .error "disk full"⟩).clipboardAttempted = true ∧
    (mainRun ⟨false, false, .ok "last_recording.wav", .ok (), .ok ["hello ", " world"],
        .error "no clipboard mechanism", .error "disk full"⟩).persistAttempted = true ∧
    (mainRun ⟨false, false, .ok "last_recording.wav", .ok (), .ok ["hello ", " world"],
        .error "no clipboard mechanism", .error "disk full"⟩).warnings =
      ["Failed to copy to clipboard: no clipboard mechanism",
       "Failed to save recording: disk full"] :=
  main_copy_persist_nonfatal
    ⟨false, false, .ok "last_recording.wav", .ok (), .ok ["hello ", " world"],
      .error "no clipboard mechanism", .error "disk full"⟩
    "hello world"
    (Or.inr ⟨rfl, "last_recording.wav", rfl⟩) rfl (by decide)

/-- C2 counterexample: the requested identifier `None` is not a member
of the allow-list, yet resolution returns the environment variable's
model `turbo` rather than the fixed default `base`, and no warning is
emitted — the fallback applies to the merged argument-or-environment
value, not to the requested identifier itself. -/
theorem get_model_name_counterexample :
    (getModelName none (some "turbo")).name = "turbo" ∧
    (getModelName none (some "turbo")).name ≠ "base" ∧
    (getModelName none (some "turbo")).warned = false := by decide

/-- C2 amended: resolution never raises and always returns a member of
the allow-list; whenever the effective identifier — the requested one if
truthy, else the environment variable's value, else `base` — is not in
the allow-list, the returned value is `base` and the warning is emitted;
an effective identifier in the allow-list is returned unchanged without
a warning. -/
theorem get_model_name_amended (modelName envModel : Option String) :
    (getModelName modelName envModel).name ∈ VALID_MODELS ∧
    (effectiveRequestedModel modelName envModel ∉ VALID_MODELS →
      getModelName modelName envModel = ⟨"base", true⟩) ∧
    (effectiveRequestedModel modelName envModel ∈ VALID_MODELS →
      getModelName modelName envModel = ⟨effectiveRequestedModel modelName envModel, false⟩) := by
  by_cases h : effectiveRequestedModel modelName envModel ∈ VALID_MODELS <;>
    refine ⟨?_, fun hn => ?_, fun hy => ?_⟩ <;>
      simp_all [getModelName]
  decide

/-- C2 witness: the invalid requested identifier `bogus` resolves to
`base` with the warning emitted. -/
theorem get_model_name_amended_witness :
    getModelName (some "bogus") none = ⟨"base", true⟩ :=
  (get_model_name_amended (some "bogus") none).2.1 (by decide)

/-- C3: with no explicit device request and no acceleration, both
backend variants resolve to the reduced-precision CPU pairing (cpu/int8
for the Whisper variant); with acceleration, to the GPU/high-precision
pairing; an explicit request always overrides auto-probing, and an
unsupported explicit value falls back to CPU. -/
theorem resolve_device_policy (d : String) (hd : d ≠ "") (hdc : d ≠ "cuda") :
    whisperResolveDevice none none false = ("cpu", "int8") ∧
    whisperResolveDevice none none true = ("cuda", "float16") ∧
    parakeetResolveDevice none none false = "cpu" ∧
    parakeetResolveDevice none none true = "cuda" ∧
    (∀ accel, whisperResolveDevice (some "cpu") none accel = ("cpu", "int8")) ∧
    (∀ accel, whisperResolveDevice (some "cuda") none accel = ("cuda", "float16")) ∧
    (∀ accel, whisperResolveDevice (some d) none accel = ("cpu", "int8")) ∧
    (∀ b, parakeetResolveDevice (some "cpu") none b = "cpu") ∧
    (∀ b, parakeetResolveDevice (some "cuda") none b = "cuda") ∧
    (∀ b, parakeetResolveDevice (some d) none b = "cpu") := by
  refine ⟨rfl, rfl, rfl, rfl, fun accel => rfl, fun accel => rfl, fun accel => ?_,
    fun b => rfl, fun b => rfl, fun b => ?_⟩ <;>
    simp [whisperResolveDevice, parakeetResolveDevice, pyOr, pyTruthy, hd, hdc]

/-- C3 witness: the unsupported explicit device `tpu` falls back to CPU
for both variants. -/
theorem resolve_device_policy_witness :
    whisperResolveDevice (some "tpu") none true = ("cpu", "int8") ∧
    parakeetResolveDevice (some "tpu") none true = "cpu" :=
  ⟨((resolve_device_policy "tpu" (by decide) (by decide)).2.2.2.2.2.2.1) true,
   ((resolve_device_policy "tpu" (by decide) (by decide)).2.2.2.2.2.2.2.2.2) true⟩

/-- C4 counterexample: the program resolves the save directory from the
settings file alone, with the platform default as fallback; it consults
no call-time flag and no environment variable for this key.  In a run
where an environment layer carries a save directory and the settings
file does not, the claimed four-layer chain yields the environment
value while the program yields the platform default. -/
theorem settings_precedence_counterexample :
    claimedPrecedence none (some "/srv/recs") none (get_default_save_dir "/home/u" .linux) =
      "/srv/recs" ∧
    resolved_save_dir "/home/u" .linux none = "/home/u/.local/share/hns/recordings" ∧
    resolved_save_dir "/home/u" .linux none ≠ "/srv/recs" := by decide

/-- C4 amended: backend, model and language each follow the strict
precedence explicit call-time value over environment variable over
settings-file value over built-in default (backend whisper, model base,
language absent meaning auto-detect), each key independently of the
others; save_dir has only two layers, the settings-file value (with a
home expansion) over the platform default — no call-time or environment
layer exists for it. -/
theorem settings_precedence_amended (home : String) (p : Platform)
    (e v f s : String) (he : e ≠ "") (hv : v ≠ "") (hf : f ≠ "") (hs : s ≠ "") :
    resolved_model (some e) (some v) (some f) = e ∧
    resolved_model none (some v) (some f) = v ∧
    resolved_model none none (some f) = f ∧
    resolved_model none none none = "base" ∧
    resolved_language (some e) (some v) (some f) = some e ∧
    resolved_language none (some v) (some f) = some v ∧
    resolved_language none none (some f) = some f ∧
    resolved_language none none none = none ∧
    resolved_backend (some e) (some v) (some f) = e ∧
    resolved_backend none (some v) (some f) = v ∧
    resolved_backend none none (some f) = f ∧
    resolved_backend none none none = "whisper" ∧
    resolved_save_dir home p (some s) = expanduser home s ∧
    resolved_save_dir home p none = get_default_save_dir home p := by
  refine ⟨?_, ?_, ?_, rfl, ?_, ?_, ?_, rfl, ?_, ?_, ?_, rfl, ?_, rfl⟩ <;>
    simp [resolved_model, resolved_language, resolved_backend, resolved_save_dir,
      pyOr, pyTruthy, he, hv, hf, hs]

/-- C4 witness: concrete values at every layer confirm each precedence
step for the four keys. -/
theorem settings_precedence_amended_witness :
    resolved_model (some "small") (some "turbo") (some "tiny") = "small" ∧
    resolved_model none (some "turbo") (some "tiny") = "turbo" ∧
    resolved_model none none (some "tiny") = "tiny" ∧
    resolved_model none none none = "base" ∧
    resolved_language (some "small") (some "turbo") (some "tiny") = some "small" ∧
    resolved_language none (some "turbo") (some "tiny") = some "turbo" ∧
    resolved_language none none (some "tiny") = some "tiny" ∧
    resolved_language none none none = none ∧
    resolved_backend (some "small") (some "turbo") (some "tiny") = "small" ∧
    resolved_backend none (some "turbo") (some "tiny") = "turbo" ∧
    resolved_backend none none (some "tiny") = "tiny" ∧
    resolved_backend none none none = "whisper" ∧
    resolved_save_dir "/home/u" .linux (some "~/recs") = expanduser "/home/u" "~/recs" ∧
    resolved_save_dir "/home/u" .linux none = get_default_save_dir "/home/u" .linux :=
  settings_precedence_amended "/home/u" .linux "small" "turbo" "tiny" "~/recs"
    (by decide) (by decide) (by decide) (by decide)

/-- C5 counterexample: on a transcript whose joined text is empty the
surfaced failure is the blanket wrapper RuntimeError carrying the
no-speech message — the internally raised ValueError is re-wrapped by
the same handler that wraps inference failures, so the caller does not
observe a failure distinct from the TranscriptionError wrapper. -/
theorem transcribe_counterexample :
    transcribe (.ok ["", "  "]) =
      .error (.runtimeError "Transcription failed: No speech detected in audio") ∧
    transcribe (.ok ["", "  "]) ≠ .error (.valueError "No speech detected in audio") := by
  decide

/-- C5 amended: the non-empty stripped per-segment texts are joined with
a single space; if and only if the joined transcript is empty, the
NoSpeechDetected ValueError is raised internally and surfaces wrapped by
the same TranscriptionError wrapper that wraps underlying inference
failures (which carries the original message); a successful
transcription never returns an empty text. -/
theorem transcribe_amended (inference : Except PyErr (List String)) :
    (∀ segs, inference = .ok segs →
      ((full_transcription segs = "" ↔
        transcribe inference =
          .error (.runtimeError "Transcription failed: No speech detected in audio")) ∧
       (full_transcription segs ≠ "" →
        transcribe inference = .ok (full_transcription segs)))) ∧
    (∀ e, inference = .error e →
      transcribe inference = .error (.runtimeError ("Transcription failed: " ++ e.msg))) ∧
    (∀ t, transcribe inference = .ok t → t ≠ "") := by
  refine ⟨fun segs hseg => ?_, fun e he => ?_, fun t ht => ?_⟩
  · subst hseg
    by_cases hempty : full_transcription segs = "" <;>
      simp [transcribe, hempty, PyErr.msg]
  · subst he
    simp [transcribe]
  · cases inference with
    | error e => simp [transcribe] at ht
    | ok segs =>
      by_cases hempty : full_transcription segs = "" <;>
        simp [transcribe, hempty] at ht
      exact ht ▸ hempty

/-- C5 witness: two segments with surrounding whitespace join to a
single-space-separated non-empty transcript. -/
theorem transcribe_amended_witness :
    transcribe (.ok ["hello ", " world"]) = .ok "hello world" :=
  ((transcribe_amended (.ok ["hello ", " world"])).1 ["hello ", " world"] rfl).2 (by decide)

/-- C6: after the capture session closes its sink, a total frame count
of zero fails with the EmptyRecordingError (ValueError "No audio
recorded"), and otherwise the path of the finished audio artifact is
returned. -/
theorem record_empty_check (chunks : List Nat) (path : String) :
    (recording_frames chunks = 0 →
      record chunks path = .error (.valueError "No audio recorded")) ∧
    (recording_frames chunks ≠ 0 → record chunks path = .ok path) := by
  constructor <;> intro h <;> simp [record, h]

/-- C6 witness: zero chunks fail with the empty-recording error; a run
with one 320-frame chunk returns the artifact path. -/
theorem record_empty_check_witness :
    record [] "last_recording.wav" = .error (.valueError "No audio recorded") ∧
    record [320] "last_recording.wav" = .ok "last_recording.wav" :=
  ⟨(record_empty_check [] "last_recording.wav").1 rfl,
   (record_empty_check [320] "last_recording.wav").2 (by decide)⟩

/-- C7: loading the settings never raises; a parse failure emits the
warning and yields the empty mapping, so downstream resolution consumes
exactly the mapping it would consume were the file absent. -/
theorem load_config_parse_failure (parse : Except String Config) (e : String) :
    load_config true (.error e) = ⟨{}, true⟩ ∧
    (load_config true (.error e)).config = (load_config false parse).config ∧
    (load_config false parse).warned = false := by
  simp [load_config]

/-- C8 counterexample: the persisted sidecar has no key named
audio_file_name; the audio file's name is stored under the key wav_file. -/
theorem metadata_field_name_counterexample :
    readField (metadataJson ⟨"hi", "base", none, "2025-01-01T00:00:00", none, none⟩
      "202501010000_hi") "audio_file_name" = none ∧
    readField (metadataJson ⟨"hi", "base", none, "2025-01-01T00:00:00", none, none⟩
      "202501010000_hi") "wav_file" = some (.jstr "202501010000_hi.wav") := by decide

/-- C8 amended: the sidecar contains exactly the fields text, model,
language, recorded_at, audio_duration_seconds,
transcription_time_seconds and wav_file (the audio file's name); writing
a transcript and metadata then reading the record back reproduces
exactly the fields that were written, with unset optional fields (such
as an absent language) represented as null. -/
theorem metadata_roundtrip (m : RecordingMeta) (stem : String) :
    (metadataJson m stem).map Prod.fst =
      ["text", "model", "language", "recorded_at", "audio_duration_seconds",
       "transcription_time_seconds", "wav_file"] ∧
    readField (metadataJson m stem) "text" = some (.jstr m.text) ∧
    readField (metadataJson m stem) "model" = some (.jstr m.model) ∧
    readField (metadataJson m stem) "language" = some (joptStr m.language) ∧
    (m.language = none → readField (metadataJson m stem) "language" = some .jnull) ∧
    readField (metadataJson m stem) "recorded_at" = some (.jstr m.recordedAt) ∧
    readField (metadataJson m stem) "audio_duration_seconds" = some (joptNum m.audioDuration) ∧
    readField (metadataJson m stem) "transcription_time_seconds" =
      some (joptNum m.transcriptionTime) ∧
    readField (metadataJson m stem) "wav_file" = some (.jstr (stem ++ ".wav")) := by
  refine ⟨rfl, rfl, rfl, rfl, fun h => ?_, rfl, rfl, rfl, rfl⟩
  show some (joptStr m.language) = some JValue.jnull
  rw [h]
  rfl

/-- C8 witness: a record with an absent language reads back null in the
language field. -/
theorem metadata_roundtrip_witness :
    readField (metadataJson ⟨"hi", "base", none, "2025-01-01T00:00:00", none, none⟩
      "202501010000_hi") "language" = some .jnull :=
  (metadata_roundtrip ⟨"hi", "base", none, "2025-01-01T00:00:00", none, none⟩
    "202501010000_hi").2.2.2.2.1 rfl

/-- C9 counterexample: the slug joins the words with underscores, not
with spaces as the claim states: on the transcript "Hello World" the
source produces hello_world while the claimed derivation produces
"hello world". -/
theorem slug_separator_counterexample :
    slug "Hello World" = "hello_world" ∧
    slugClaimed "Hello World" = "hello world" ∧
    slug "Hello World" ≠ slugClaimed "Hello World" := by decide

/-- C9 amended: for every transcript text, the slug is derived by
lower-casing the transcript, stripping the characters that are neither
alphanumeric nor the word separator, taking at most the first 5 words
and joining them with underscores, with the fixed placeholder no_speech
when the transcript yields no words. -/
theorem slug_matches_amended_claim (text : String) : slug text = slugAmended text := by
  have hfilter : (text.data.map pyLowerChar).filter keptChar =
      (text.data.map pyLowerChar).filter (fun c => isAlphanumeric c || c.toNat == 32) := by
    refine List.filter_congr ?_
    intro x hx
    obtain ⟨c, _, rfl⟩ := List.mem_map.mp hx
    exact keptChar_pyLower c
  simp only [slug, slugAmended, slugWords]
  rw [hfilter]

/-- C10: invoked with the replay flag while the cached last-recording
file does not exist, the run prints the error, exits with code 1, and
neither records audio nor loads a model nor transcribes. -/
theorem main_last_missing (i : MainInputs)
    (h1 : i.lastFlag = true) (h2 : i.lastFileExists = false) :
    (mainRun i).exitCode = 1 ∧
    (mainRun i).errors =
      ["No previous recording found. Record audio first by running hns without --last flag."] ∧
    (mainRun i).recorded = false ∧
    (mainRun i).modelLoaded = false ∧
    (mainRun i).transcribed = false ∧
    (mainRun i).stdout = [] := by
  simp [mainRun, mainInit, h1, h2]

/-- C10 witness: a concrete replay invocation with no cached recording
exits 1 having run no stage. -/
theorem main_last_missing_witness :
    (mainRun ⟨true, false, .ok "p", .ok (), .ok ["hi"], .ok (), .ok ()⟩).exitCode = 1 ∧
    (mainRun ⟨true, false, .ok "p", .ok (), .ok ["hi"], .ok (), .ok ()⟩).errors =
      ["No previous recording found. Record audio first by running hns without --last flag."] ∧
    (mainRun ⟨true, false, .ok "p", .ok (), .ok ["hi"], .ok (), .ok ()⟩).recorded = false ∧
    (mainRun ⟨true, false, .ok "p", .ok (), .ok ["hi"], .ok (), .ok ()⟩).modelLoaded = false ∧
    (mainRun ⟨true, false, .ok "p", .ok (), .ok ["hi"], .ok (), .ok ()⟩).transcribed = false ∧
    (mainRun ⟨true, false, .ok "p", .ok (), .ok ["hi"], .ok (), .ok ()⟩).stdout = [] :=
  main_last_missing ⟨true, false, .ok "p", .ok (), .ok ["hi"], .ok (), .ok ()⟩ rfl rfl

end Hns
